import Mathlib

/-!
Shallow embedding of the rosjs core (spinner, master RPC client, TCPROS
header validation, publisher/subscriber connection handling, service
client queue, service response framing), with theorems checking the
natural-language specification against the code.

Machine integers: JS numbers that the code only ever compares and adds
are modelled as `Int` (timestamps, throttle values, queue bounds) or
`Nat` (lengths, indices).  Buffers are modelled as `List Nat`, one entry
per byte.
-/

namespace Rosjs

/-! ## Wire primitives

The byte-level serializers the core calls (`base_serializers.uint8`,
`uint32`, `string` from the `ros_msg_utils` collaborator) are specified
by the wire codec: little-endian fixed-width integers, a string is a
u32 little-endian length followed by its raw bytes.  Writes into a
pre-allocated buffer at an offset are modelled by `writeBytes`. -/

/-- Little-endian 4-byte encoding of a `u32` value. -/
def uint32LE (n : Nat) : List Nat :=
  [n % 256, n / 256 % 256, n / 65536 % 256, n / 16777216 % 256]

/-- The bytes of an (ASCII) string, one entry per character. -/
def strBytes (s : String) : List Nat :=
  s.data.map Char.toNat

/-- Overwrite `data.length` bytes of `buf` starting at offset `off`,
keeping the rest (the model of writing into a Node `Buffer`). -/
def writeBytes (buf : List Nat) (off : Nat) (data : List Nat) : List Nat :=
  buf.take off ++ data ++ buf.drop (off + data.length)

/-- `base_serializers.uint8 v buf off`. -/
def writeUInt8 (v : Nat) (buf : List Nat) (off : Nat) : List Nat :=
  writeBytes buf off [v % 256]

/-- `base_serializers.uint32 v buf off` (little endian). -/
def writeUInt32 (v : Nat) (buf : List Nat) (off : Nat) : List Nat :=
  writeBytes buf off (uint32LE v)

/-- `base_serializers.string s buf off`: u32 length then raw bytes. -/
def writeStr (s : String) (buf : List Nat) (off : Nat) : List Nat :=
  writeBytes buf off (uint32LE (strBytes s).length ++ strBytes s)

/-! ## Spinner client queues (`ClientQueue` from the spinner source)

`ClientQueue` holds the pending messages for one publisher/subscriber.
The constructor rejects `queueSize < 1`; `push` appends and, when the
length exceeds `queueSize`, shifts off the oldest element;
`handleClientMessages(time)` hands the whole queue to the client and
clears it when the throttle window has passed. -/

structure ClientQueue (α : Type) where
  queue : List α
  queueSize : Nat
  throttleMs : Int
  handleTime : Option Int
  deriving Repr, DecidableEq

namespace ClientQueue

/-- `new ClientQueue(client, queueSize, throttleMs)`: throws when
`queueSize < 1`, otherwise starts with an empty queue and no handle
time. -/
def mk' (α : Type) (queueSize : Int) (throttleMs : Int) :
    Except String (ClientQueue α) :=
  if queueSize < 1 then
    .error ("Unable to create client message queue with size " ++
      toString queueSize ++ " - minimum is 1")
  else
    .ok { queue := [], queueSize := queueSize.toNat,
          throttleMs := throttleMs, handleTime := none }

/-- `push(item)`: append, then shift off the head if the length now
exceeds `queueSize`. -/
def push {α : Type} (st : ClientQueue α) (item : α) : ClientQueue α :=
  let q := st.queue ++ [item]
  if st.queueSize < q.length then { st with queue := q.tail }
  else { st with queue := q }

/-- Pushing a whole list of messages in order. -/
def pushAll {α : Type} (st : ClientQueue α) (msgs : List α) : ClientQueue α :=
  msgs.foldl push st

/-- The eligibility test of `handleClientMessages`:
`this._handleTime === null || time - this._handleTime > this.throttleMs`. -/
def eligible {α : Type} (st : ClientQueue α) (time : Int) : Bool :=
  match st.handleTime with
  | none => true
  | some h => decide (time - h > st.throttleMs)

/-- `handleClientMessages(time)`: when eligible, record the handle time,
hand the entire queue to the client (`client._handleMsgQueue(this._queue)`)
in one call, clear the queue and return `true`; otherwise change nothing
and return `false`.  The handed-over batch is returned explicitly. -/
def handleClientMessages {α : Type} (st : ClientQueue α) (time : Int) :
    Bool × List α × ClientQueue α :=
  if st.eligible time then
    (true, st.queue, { st with handleTime := some time, queue := [] })
  else
    (false, [], st)

end ClientQueue

/-! ## GlobalSpinner (current, string-id variant) -/

structure GlobalSpinner (α : Type) where
  clientQueueMap : List (String × ClientQueue α)
  clientCallQueue : List String
  deriving Repr, DecidableEq

namespace GlobalSpinner

/-- `addClient(client, clientId, queueSize, throttleMs)`: only when
`queueSize > 0` is a `ClientQueue` created and stored under `clientId`;
otherwise the spinner is unchanged.  The `ClientQueue` constructor's
throw is surfaced through `Except`. -/
def addClient {α : Type} (sp : GlobalSpinner α) (clientId : String)
    (queueSize : Int) (throttleMs : Int) :
    Except String (GlobalSpinner α) :=
  if queueSize > 0 then
    match ClientQueue.mk' α queueSize throttleMs with
    | .error e => .error e
    | .ok cq =>
      .ok { sp with clientQueueMap :=
              (clientId, cq) :: sp.clientQueueMap.filter (fun p => p.1 ≠ clientId) }
  else
    .ok sp

/-- Map lookup by client id. -/
def lookup {α : Type} (sp : GlobalSpinner α) (clientId : String) :
    Option (ClientQueue α) :=
  (sp.clientQueueMap.find? (fun p => p.1 = clientId)).map Prod.snd

/-- `_queueMessage(clientId, message)`: throws
`'Unable to queue message for unknown client'` when no queue is
registered for `clientId`, otherwise pushes the message. -/
def queueMessage {α : Type} (sp : GlobalSpinner α) (clientId : String)
    (message : α) : Except String (GlobalSpinner α) :=
  match sp.lookup clientId with
  | none => .error "Unable to queue message for unknown client"
  | some cq =>
    .ok { sp with clientQueueMap :=
            sp.clientQueueMap.map (fun p =>
              if p.1 = clientId then (p.1, cq.push message) else p) }

/-- `ping(clientId, msg)`: queue the message (which throws for an
unknown client, aborting the ping), then add the client to the call
queue (a JS `Set`, so only when absent). -/
def ping {α : Type} (sp : GlobalSpinner α) (clientId : String) (msg : α) :
    Except String (GlobalSpinner α) :=
  match sp.queueMessage clientId msg with
  | .error e => .error e
  | .ok sp' =>
    .ok { sp' with clientCallQueue :=
            if clientId ∈ sp'.clientCallQueue then sp'.clientCallQueue
            else sp'.clientCallQueue ++ [clientId] }

/-- One spinner tick (`_handleQueue`) restricted to the per-client step:
each client in the call queue is handled; the ids whose
`handleClientMessages` returned `false` are kept for the next tick
(`keepOnQueue`).  Returns the updated (id, queue) pairs and the kept
ids. -/
def tick {α : Type} (clients : List (String × ClientQueue α)) (now : Int) :
    List (String × ClientQueue α) × List String :=
  (clients.map (fun p => (p.1, (p.2.handleClientMessages now).2.2)),
   (clients.filter (fun p => ¬ (p.2.handleClientMessages now).1)).map Prod.fst)

end GlobalSpinner

/-! ## Master RPC client (`XmlrpcClient`)

Calls queue FIFO; only the head executes.  On success the head is
shifted and the backoff index reset.  On failure, an error whose `code`
is `'ECONNREFUSED'` leaves the queue untouched and schedules a retry
after `TRY_AGAIN_LIST[this._timeout]` ms (saturating increment of the
index); any other failure shifts the head, resets the index and rejects
the head's promise. -/

def TRY_AGAIN_LIST : List Nat :=
  [1, 2, 2, 4, 4, 4, 4, 8, 8, 8, 8, 16, 32, 64, 128, 256, 512, 1000]

namespace XmlrpcClient

/-- `_scheduleTryAgain()`: read the delay at the current index, then
advance the index unless it is already at the last entry.  Returns
(delay, new index). -/
def scheduleTryAgain (idx : Nat) : Nat × Nat :=
  (TRY_AGAIN_LIST.getD idx 0,
   if idx + 1 < TRY_AGAIN_LIST.length then idx + 1 else idx)

/-- The backoff index after `k` consecutive connection-refused failures,
starting from a reset index of 0. -/
def idxAfterFailures : Nat → Nat
  | 0 => 0
  | k + 1 => (scheduleTryAgain (idxAfterFailures k)).2

/-- The delay scheduled by the `k`-th consecutive failure (`k ≥ 1`):
the index has been advanced `k - 1` times before it. -/
def delayOfFailure (k : Nat) : Nat :=
  (scheduleTryAgain (idxAfterFailures (k - 1))).1

/-- Result of the head call, as seen by `_tryExecuteCall`'s handlers: it
succeeds, or fails with an optional transport error code (`err.code`). -/
inductive CallResult where
  | success
  | failure (code : Option String)
  deriving Repr, DecidableEq

/-- What `_tryExecuteCall` did with the head call. -/
inductive HeadAction where
  | resolved
  | rejected
  | retryScheduled (delayMs : Nat)
  deriving Repr, DecidableEq

/-- Queue of pending calls (by id) plus the backoff index. -/
structure State where
  callQueue : List Nat
  timeoutIdx : Nat
  deriving Repr, DecidableEq

/-- The completion handling of `_tryExecuteCall` for a non-empty queue:
success → shift + reset + resolve; failure with code `ECONNREFUSED` →
keep the head and schedule a retry; any other failure → shift + reset +
reject. -/
def step (st : State) (res : CallResult) : State × HeadAction :=
  match res with
  | .success =>
    ({ callQueue := st.callQueue.tail, timeoutIdx := 0 }, .resolved)
  | .failure code =>
    if code = some "ECONNREFUSED" then
      let sched := scheduleTryAgain st.timeoutIdx
      ({ st with timeoutIdx := sched.2 }, .retryScheduled sched.1)
    else
      ({ callQueue := st.callQueue.tail, timeoutIdx := 0 }, .rejected)

end XmlrpcClient

/-! ## TCPROS connection headers (`tcpros_utils.js`)

A parsed connection header: each recognized key is present or absent.
`validateSubHeader` is the publisher-side check of a subscriber's
header; it returns the serialized error string, here just the error
text (`none` = valid). -/

structure ConnHeader where
  topic : Option String
  type : Option String
  md5sum : Option String
  deriving Repr, DecidableEq

namespace TcprosUtils

/-- `validateSubHeader(header, topic, type, md5sum)`: missing
`topic`/`type`/`md5sum` fields, a topic mismatch, a type mismatch
(unless the peer sent `'*'`) or an md5sum mismatch (unless the peer
sent `'*'`) produce an error message; otherwise `null`. -/
def validateSubHeader (header : ConnHeader) (topic type md5sum : String) :
    Option String :=
  match header.topic with
  | none => some "Connection header missing expected field [topic]"
  | some htopic =>
    match header.type with
    | none => some "Connection header missing expected field [type]"
    | some htype =>
      match header.md5sum with
      | none => some "Connection header missing expected field [md5sum]"
      | some hmd5 =>
        if htopic ≠ topic then
          some ("Got incorrect topic [" ++ htopic ++ "] expected [" ++ topic ++ "]")
        else if htype ≠ type ∧ htype ≠ "*" then
          some ("Got incorrect message type [" ++ htype ++ "] expected [" ++ type ++ "]")
        else if hmd5 ≠ md5sum ∧ hmd5 ≠ "*" then
          some ("Got incorrect md5sum [" ++ hmd5 ++ "] expected [" ++ md5sum ++ "]")
        else
          none

/-- Modelled from the spec: `TcprosUtils.validatePubHeader` is called by
`Subscriber._handleMessage` but is absent from the source tree; §4.2
says subscribers apply to the publisher's response header the rule
symmetric to `validateSubHeader` (no topic in the response): missing
`type`/`md5sum`, a type mismatch unless `'*'` was sent, or an md5sum
mismatch unless `'*'` was sent, produce an error. -/
def validatePubHeader (header : ConnHeader) (type md5sum : String) :
    Option String :=
  match header.type with
  | none => some "Connection header missing expected field [type]"
  | some htype =>
    match header.md5sum with
    | none => some "Connection header missing expected field [md5sum]"
    | some hmd5 =>
      if htype ≠ type ∧ htype ≠ "*" then
        some ("Got incorrect message type [" ++ htype ++ "] expected [" ++ type ++ "]")
      else if hmd5 ≠ md5sum ∧ hmd5 ≠ "*" then
        some ("Got incorrect md5sum [" ++ hmd5 ++ "] expected [" ++ md5sum ++ "]")
      else
        none

/-- The condition under which `validateSubHeader` rejects, read off its
if-chain: a required field is missing, the topic mismatches, the type
mismatches and is not `'*'`, or the md5sum mismatches and the *peer's*
md5sum is not `'*'` (the publisher's own md5sum is not consulted). -/
def subHeaderRejects (header : ConnHeader) (topic type md5sum : String) : Bool :=
  match header.topic, header.type, header.md5sum with
  | some ht, some hty, some h5 =>
    ht != topic || (hty != type && hty != "*") || (h5 != md5sum && h5 != "*")
  | _, _, _ => true

/-- The rejection condition as the specification words it: the md5sum
check is suppressed when *either* side sent `'*'`.  Kept separate from
`subHeaderRejects` to compare the spec against the code. -/
def specSubHeaderRejects (header : ConnHeader) (topic type md5sum : String) : Bool :=
  match header.topic, header.type, header.md5sum with
  | some ht, some hty, some h5 =>
    ht != topic || (hty != type && hty != "*") ||
      (h5 != md5sum && h5 != "*" && md5sum != "*")
  | _, _, _ => true

end TcprosUtils

/-! ## Typed-message collaborator contract

The core consumes typed message classes through `serialize` /
`getMessageSize`; the contract requires `getMessageSize(v)` to be the
exact byte count of `serialize(v)`, so the model carries the serialized
bytes and derives the size. -/

structure MsgSpec (α : Type) where
  serialize : α → List Nat
  md5sum : String

namespace TcprosUtils

/-- `serializeStringFields(fields)`: total `u32` length of the
length-prefixed fields, followed by each field as a length-prefixed
string, written sequentially into a pre-allocated buffer. -/
def serializeStringFields (fields : List String) : List Nat :=
  let length := fields.foldl (fun acc f => acc + (f.length + 4)) 0
  let buf := writeUInt32 length (List.replicate (4 + length) 0) 0
  (fields.foldl (fun (acc : List Nat × Nat) f =>
      (writeStr f acc.1 acc.2, acc.2 + 4 + f.length)) (buf, 4)).1

/-- `createPubHeader(callerId, md5sum, type, latching)`; the JS boolean
`latching` is coerced to the string `"true"`/`"false"`. -/
def createPubHeader (callerId md5sum type : String) (latching : Bool) :
    List Nat :=
  serializeStringFields
    ["callerid=" ++ callerId,
     "md5sum=" ++ md5sum,
     "type=" ++ type,
     "latching=" ++ (if latching then "true" else "false")]

/-- `serializeMessage(MessageClass, message)` with the default
`prependMessageLength`: allocate `msgSize + 4` bytes, write the `u32`
size at offset 0, then the serialized message at offset 4. -/
def serializeMessage {α : Type} (spec : MsgSpec α) (message : α) : List Nat :=
  let msgSize := (spec.serialize message).length
  writeBytes (writeUInt32 msgSize (List.replicate (msgSize + 4) 0) 0) 4
    (spec.serialize message)

/-- `serializeServiceResponse(ResponseClass, response, success)` with the
default `prependResponseInfo`: on success allocate `respSize + 5` bytes
and write the success byte `1` at offset 0, the `u32` response size at
offset 1, and the serialized response at offset 5; on failure allocate
`5 + errLen` bytes and write the byte `0` at offset 0 and the
length-prefixed error string `'Unable to handle service call'` at
offset 1. -/
def serializeServiceResponse {α : Type} (spec : MsgSpec α) (response : α)
    (success : Bool) : List Nat :=
  if success then
    let respSize := (spec.serialize response).length
    let buf := List.replicate (respSize + 5) 0
    writeBytes (writeUInt32 respSize (writeUInt8 1 buf 0) 1) 5
      (spec.serialize response)
  else
    let errorMessage := "Unable to handle service call"
    let buf := List.replicate (5 + errorMessage.length) 0
    writeStr errorMessage (writeUInt8 0 buf 0) 1

end TcprosUtils

/-! ## Publisher (`Publisher.js`) -/

structure Publisher (α : Type) where
  topic : String
  type : String
  latching : Bool
  lastSentMsg : Option (List Nat)
  subClients : List String
  messageHandler : MsgSpec α

namespace Publisher

/-- The per-message body of `_handleMsgQueue`: serialize the message
once, write the same bytes to every connected subscriber (collected in
the broadcast list), and when latching remember it as `lastSentMsg`. -/
def handleMsgStep {α : Type} (acc : Publisher α × List (List Nat)) (msg : α) :
    Publisher α × List (List Nat) :=
  let serializedMsg := TcprosUtils.serializeMessage acc.1.messageHandler msg
  ({ acc.1 with lastSentMsg :=
       if acc.1.latching then some serializedMsg else acc.1.lastSentMsg },
   acc.2 ++ [serializedMsg])

/-- `_handleMsgQueue(msgQueue)`: handle each queued message in order. -/
def handleMsgQueue {α : Type} (p : Publisher α) (msgQueue : List α) :
    Publisher α × List (List Nat) :=
  msgQueue.foldl handleMsgStep (p, [])

/-- What `handleSubscriberConnection` did to the connecting socket:
either the serialized validation error was sent and the socket ended, or
the listed frames were written in order and the subscriber was added. -/
structure ConnOutcome where
  errorSent : Option String
  wrote : List (List Nat)
  added : Bool
  deriving Repr, DecidableEq

/-- `handleSubscriberConnection(subscriber, header)`: validate the
subscriber's header against the publisher's topic/type/md5sum; on error,
send it and end the connection; otherwise write the response header,
then (when a latched message exists) the latched bytes, and add the
subscriber to `_subClients`. -/
def handleSubscriberConnection {α : Type} (p : Publisher α)
    (nodeName subName : String) (header : ConnHeader) :
    Publisher α × ConnOutcome :=
  match TcprosUtils.validateSubHeader header p.topic p.type
      p.messageHandler.md5sum with
  | some e => (p, { errorSent := some e, wrote := [], added := false })
  | none =>
    let respHeader := TcprosUtils.createPubHeader nodeName
      p.messageHandler.md5sum p.type p.latching
    let latchedWrites := match p.lastSentMsg with
      | some m => [m]
      | none => []
    ({ p with subClients := p.subClients ++ [subName] },
     { errorSent := none, wrote := respHeader :: latchedWrites, added := true })

end Publisher

/-! ## Subscriber connection state machine (`Subscriber._handleMessage`)

The first frame on a publisher connection is parsed as the publisher's
response header; if it carries `error=` the frame is ignored, if it
fails validation the connection is ended, otherwise the connection is
marked initialized.  Frames on an initialized connection are handed
toward the user callback (synchronously when `throttleMs < 0`, else via
a spinner ping); `delivered` collects them.  A closed connection emits
no further frames. -/

/-- A parsed publisher response header: the `error` field plus the
fields validation looks at. -/
structure PubHeaderMsg where
  error : Option String
  fields : ConnHeader
  deriving Repr, DecidableEq

structure SubConnState where
  inited : Bool
  closed : Bool
  delivered : List (List Nat)
  deriving Repr, DecidableEq

namespace Subscriber

def initialConn : SubConnState :=
  { inited := false, closed := false, delivered := [] }

/-- One `_handleMessage(client, msg)` step, with `parse` standing for
`TcprosUtils.parseTcpRosHeader`. -/
def handleMessage (type md5sum : String) (parse : List Nat → PubHeaderMsg)
    (st : SubConnState) (msg : List Nat) : SubConnState :=
  if st.closed then st
  else if ¬ st.inited then
    let header := parse msg
    match header.error with
    | some _ => st
    | none =>
      match TcprosUtils.validatePubHeader header.fields type md5sum with
      | some _ => { st with closed := true }
      | none => { st with inited := true }
  else
    { st with delivered := st.delivered ++ [msg] }

/-- Processing a whole inbound frame sequence. -/
def runConn (type md5sum : String) (parse : List Nat → PubHeaderMsg)
    (st : SubConnState) (frames : List (List Nat)) : SubConnState :=
  frames.foldl (handleMessage type md5sum parse) st

end Subscriber

/-! ## Service client call queue (`ServiceClient.js`) -/

structure ServiceClientState where
  callQueue : List Nat
  calling : Bool
  maxQueueLength : Int
  deriving Repr, DecidableEq

namespace ServiceClient

/-- `call(request)`: push the new call; when a positive
`_maxQueueLength` is exceeded, shift off the oldest queued call and
reject it (returned as the dropped call). -/
def call (st : ServiceClientState) (c : Nat) :
    ServiceClientState × Option Nat :=
  let q := st.callQueue ++ [c]
  if 0 < st.maxQueueLength ∧ st.maxQueueLength < (q.length : Int) then
    ({ st with callQueue := q.tail }, q.head?)
  else
    ({ st with callQueue := q }, none)

/-- `_executeCall()`: shift the head call off the queue and mark it as
the one in flight (`this._calling = true`); on an empty queue nothing
happens. -/
def executeCall (st : ServiceClientState) :
    ServiceClientState × Option Nat :=
  match st.callQueue with
  | [] => (st, none)
  | h :: t => ({ st with callQueue := t, calling := true }, some h)

end ServiceClient

/-! ## Concrete example instances (used to exercise the theorems) -/

/-- A one-byte message serializer for concrete runs. -/
def exampleSpec : MsgSpec Nat :=
  { serialize := fun n => [n % 256], md5sum := "m5" }

/-- A latching publisher on `/chatter` with no subscribers yet. -/
def examplePub : Publisher Nat :=
  { topic := "/chatter", type := "std_msgs/String", latching := true,
    lastSentMsg := none, subClients := [], messageHandler := exampleSpec }

/-- A subscriber header that matches `examplePub`. -/
def exampleHeader : ConnHeader :=
  ⟨some "/chatter", some "std_msgs/String", some "m5"⟩

/-! ## Helper lemmas -/

/-- Writing `data` over a region of exactly its own length splits the
buffer around the region. -/
theorem writeBytes_exact (pre mid post data : List Nat)
    (h : data.length = mid.length) :
    writeBytes (pre ++ mid ++ post) pre.length data = pre ++ data ++ post := by
  unfold writeBytes
  have h1 : (pre ++ (mid ++ post)).take pre.length = pre :=
    List.take_left pre (mid ++ post)
  have h2 : (pre ++ (mid ++ post)).drop (pre.length + data.length) = post := by
    rw [h, ← List.drop_drop, List.drop_left, List.drop_left]
  simp only [List.append_assoc]
  rw [h1, h2]

theorem uint32LE_length (n : Nat) : (uint32LE n).length = 4 := rfl

/-- Writing a byte `< 256` at offset 0 of a fresh buffer. -/
theorem writeUInt8_replicate (v n : Nat) (hv : v < 256) :
    writeUInt8 v (List.replicate (n + 1) 0) 0 = v :: List.replicate n 0 := by
  have := writeBytes_exact [] [0] (List.replicate n 0) [v] (by simp)
  simpa [writeUInt8, Nat.mod_eq_of_lt hv, List.replicate_succ] using this

/-- A successful service response is the success byte `1`, the `u32`
little-endian response size, then the response bytes. -/
theorem serializeServiceResponse_true {α : Type} (spec : MsgSpec α) (r : α) :
    TcprosUtils.serializeServiceResponse spec r true
      = 1 :: (uint32LE (spec.serialize r).length ++ spec.serialize r) := by
  unfold TcprosUtils.serializeServiceResponse
  simp only [if_true]
  set U := (spec.serialize r).length with hU
  have e1 : writeUInt8 1 (List.replicate (U + 5) 0) 0 = 1 :: List.replicate (U + 4) 0 :=
    writeUInt8_replicate 1 (U + 4) (by norm_num)
  have e2 : writeUInt32 U (1 :: List.replicate (U + 4) 0) 1
      = 1 :: (uint32LE U ++ List.replicate U 0) := by
    have hsplit : (1 : Nat) :: List.replicate (U + 4) 0
        = [1] ++ List.replicate 4 0 ++ List.replicate U 0 := by
      rw [Nat.add_comm U 4, List.replicate_add]
      simp
    have := writeBytes_exact [1] (List.replicate 4 0) (List.replicate U 0)
      (uint32LE U) (by simp [uint32LE])
    rw [hsplit]
    simpa [writeUInt32] using this
  have e3 : writeBytes (1 :: (uint32LE U ++ List.replicate U 0)) 5 (spec.serialize r)
      = 1 :: (uint32LE U ++ spec.serialize r) := by
    have hsplit : (1 : Nat) :: (uint32LE U ++ List.replicate U 0)
        = (1 :: uint32LE U) ++ List.replicate U 0 ++ [] := by simp
    have hlen : ((1 : Nat) :: uint32LE U).length = 5 := by simp [uint32LE]
    have := writeBytes_exact (1 :: uint32LE U) (List.replicate U 0) []
      (spec.serialize r) (by simp [← hU])
    rw [hsplit, ← hlen]
    simpa using this
  rw [e1, e2, e3]

/-- A failed service response is the failure byte `0` followed by the
length-prefixed error string. -/
theorem serializeServiceResponse_false {α : Type} (spec : MsgSpec α) (r : α) :
    TcprosUtils.serializeServiceResponse spec r false
      = 0 :: (uint32LE (strBytes "Unable to handle service call").length
          ++ strBytes "Unable to handle service call") := by
  unfold TcprosUtils.serializeServiceResponse
  simp only [Bool.false_eq_true, if_false]
  have hlen : ("Unable to handle service call").length = 29 := rfl
  have hsb : (strBytes "Unable to handle service call").length = 29 := rfl
  have e1 : writeUInt8 0 (List.replicate (5 + 29) 0) 0 = 0 :: List.replicate 33 0 :=
    writeUInt8_replicate 0 33 (by norm_num)
  have e2 : writeStr "Unable to handle service call" (0 :: List.replicate 33 0) 1
      = 0 :: (uint32LE 29 ++ strBytes "Unable to handle service call") := by
    have hsplit : (0 : Nat) :: List.replicate 33 0
        = [0] ++ List.replicate 33 0 ++ [] := by simp
    have := writeBytes_exact [0] (List.replicate 33 0) []
      (uint32LE 29 ++ strBytes "Unable to handle service call") (by simp [uint32LE, hsb])
    rw [hsplit]
    simpa [writeStr, hsb] using this
  rw [hlen, e1, e2, hsb]

/-- `serializeMessage` is the `u32` little-endian size followed by the
serialized bytes. -/
theorem serializeMessage_eq {α : Type} (spec : MsgSpec α) (m : α) :
    TcprosUtils.serializeMessage spec m
      = uint32LE (spec.serialize m).length ++ spec.serialize m := by
  unfold TcprosUtils.serializeMessage
  set U := (spec.serialize m).length with hU
  show writeBytes (writeUInt32 U (List.replicate (U + 4) 0) 0) 4 (spec.serialize m)
      = uint32LE U ++ spec.serialize m
  have e1 : writeUInt32 U (List.replicate (U + 4) 0) 0
      = uint32LE U ++ List.replicate U 0 := by
    have hsplit : List.replicate (U + 4) (0 : Nat)
        = [] ++ List.replicate 4 0 ++ List.replicate U 0 := by
      rw [Nat.add_comm U 4, List.replicate_add]
      simp
    have := writeBytes_exact [] (List.replicate 4 0) (List.replicate U 0)
      (uint32LE U) (by simp [uint32LE])
    rw [hsplit]
    simpa [writeUInt32] using this
  have e2 : writeBytes (uint32LE U ++ List.replicate U 0) 4 (spec.serialize m)
      = uint32LE U ++ spec.serialize m := by
    have hsplit : uint32LE U ++ List.replicate U 0
        = uint32LE U ++ List.replicate U 0 ++ [] := by simp
    have hlen : (uint32LE U).length = 4 := rfl
    have := writeBytes_exact (uint32LE U) (List.replicate U 0) []
      (spec.serialize m) (by simp [← hU])
    rw [hsplit, ← hlen]
    simpa using this
  rw [e1, e2]

/-- Pushing a sequence of messages onto a client queue whose load is
within its capacity keeps exactly the suffix of the pushed stream that
fits: the oldest elements are dropped, never the newest, and the other
fields are untouched. -/
theorem pushAll_queue {α : Type} (msgs : List α) :
    ∀ st : ClientQueue α, st.queue.length ≤ st.queueSize →
      (st.pushAll msgs).queue
          = (st.queue ++ msgs).drop (st.queue.length + msgs.length - st.queueSize)
      ∧ (st.pushAll msgs).queueSize = st.queueSize
      ∧ (st.pushAll msgs).throttleMs = st.throttleMs
      ∧ (st.pushAll msgs).handleTime = st.handleTime := by
  induction msgs with
  | nil =>
    intro st h
    refine ⟨?_, rfl, rfl, rfl⟩
    simp [ClientQueue.pushAll, Nat.sub_eq_zero_of_le h]
  | cons x xs ih =>
    intro st h
    have hstep : st.pushAll (x :: xs) = (st.push x).pushAll xs := rfl
    by_cases hc : st.queueSize < st.queue.length + 1
    · -- the queue was full: the push shifts off the oldest element
      have hfull : st.queue.length = st.queueSize := by omega
      have hpush : st.push x = { st with queue := (st.queue ++ [x]).tail } := by
        unfold ClientQueue.push
        rw [if_pos (by simpa using hc)]
      have hlen : (st.queue ++ [x]).tail.length ≤ st.queueSize := by
        rw [List.length_tail]
        simp
        omega
      obtain ⟨hq, hs, ht, hh⟩ := ih { st with queue := (st.queue ++ [x]).tail }
        (by simpa using hlen)
      rw [hstep, hpush]
      refine ⟨?_, hs, ht, hh⟩
      rw [hq]
      have htl : (st.queue ++ [x]).tail ++ xs = ((st.queue ++ [x]) ++ xs).drop 1 := by
        rw [List.drop_append_of_le_length (show 1 ≤ (st.queue ++ [x]).length by simp),
          List.drop_one]
      simp only [htl, List.drop_drop]
      have harr : (st.queue ++ [x]) ++ xs = st.queue ++ (x :: xs) := by
        rw [List.append_assoc]
        rfl
      rw [harr]
      have hlt : (st.queue ++ [x]).tail.length = st.queue.length := by
        rw [List.length_tail]
        simp
      rw [hlt]
      congr 1
      simp only [List.length_cons]
      omega
    · -- room left: the push only appends
      have hpush : st.push x = { st with queue := st.queue ++ [x] } := by
        unfold ClientQueue.push
        rw [if_neg (by simpa using hc)]
      obtain ⟨hq, hs, ht, hh⟩ := ih { st with queue := st.queue ++ [x] }
        (by simp; omega)
      rw [hstep, hpush]
      refine ⟨?_, hs, ht, hh⟩
      rw [hq]
      have harr : (st.queue ++ [x]) ++ xs = st.queue ++ (x :: xs) := by
        rw [List.append_assoc]
        rfl
      rw [harr]
      congr 1
      simp only [List.length_append, List.length_cons, List.length_nil]
      omega

/-- `_handleMsgQueue` only ever touches `lastSentMsg` of the publisher
state; every other field survives the fold. -/
theorem handleMsgFold_fields {α : Type} (msgs : List α) :
    ∀ acc : Publisher α × List (List Nat),
      (msgs.foldl Publisher.handleMsgStep acc).1.topic = acc.1.topic
      ∧ (msgs.foldl Publisher.handleMsgStep acc).1.type = acc.1.type
      ∧ (msgs.foldl Publisher.handleMsgStep acc).1.latching = acc.1.latching
      ∧ (msgs.foldl Publisher.handleMsgStep acc).1.subClients = acc.1.subClients
      ∧ (msgs.foldl Publisher.handleMsgStep acc).1.messageHandler
          = acc.1.messageHandler := by
  induction msgs with
  | nil => intro acc; exact ⟨rfl, rfl, rfl, rfl, rfl⟩
  | cons x xs ih =>
    intro acc
    exact ih (Publisher.handleMsgStep acc x)

/-- For a latching publisher, handling a non-empty batch leaves
`lastSentMsg` holding the serialization of the batch's last message. -/
theorem handleMsgFold_lastSent {α : Type} (msgs : List α) :
    ∀ (acc : Publisher α × List (List Nat)) (m : α),
      acc.1.latching = true → msgs.getLast? = some m →
      (msgs.foldl Publisher.handleMsgStep acc).1.lastSentMsg
        = some (TcprosUtils.serializeMessage acc.1.messageHandler m) := by
  induction msgs with
  | nil => intro acc m _ hm; cases hm
  | cons x xs ih =>
    intro acc m hl hm
    cases xs with
    | nil =>
      simp only [List.getLast?_singleton, Option.some.injEq] at hm
      subst hm
      simp [Publisher.handleMsgStep, hl]
    | cons y ys =>
      have hm' : (y :: ys).getLast? = some m := by
        simpa using hm
      have hfields := handleMsgFold_fields [x] acc
      have hl' : (Publisher.handleMsgStep acc x).1.latching = true := by
        simpa [Publisher.handleMsgStep] using hl
      have hmh : (Publisher.handleMsgStep acc x).1.messageHandler
          = acc.1.messageHandler := rfl
      have := ih (Publisher.handleMsgStep acc x) m hl' hm'
      rw [hmh] at this
      simpa using this

/-- A closed subscriber connection ignores every further frame. -/
theorem runConn_closed (type md5sum : String) (parse : List Nat → PubHeaderMsg)
    (frames : List (List Nat)) :
    ∀ st : SubConnState, st.closed = true →
      Subscriber.runConn type md5sum parse st frames = st := by
  induction frames with
  | nil => intro st _; rfl
  | cons f fs ih =>
    intro st h
    have hstep : Subscriber.handleMessage type md5sum parse st f = st := by
      unfold Subscriber.handleMessage
      rw [if_pos h]
    show Subscriber.runConn type md5sum parse
        (Subscriber.handleMessage type md5sum parse st f) fs = st
    rw [hstep]
    exact ih st h

/-- `validateSubHeader` rejects exactly when `subHeaderRejects` says it
does. -/
theorem validateSubHeader_isSome (header : ConnHeader) (topic type md5sum : String) :
    (TcprosUtils.validateSubHeader header topic type md5sum).isSome
      = TcprosUtils.subHeaderRejects header topic type md5sum := by
  rcases header with ⟨ht, hty, h5⟩
  unfold TcprosUtils.validateSubHeader TcprosUtils.subHeaderRejects
  cases ht <;> cases hty <;> cases h5 <;> simp
  split_ifs <;> (simp_all [bne_iff_ne]; try tauto)

/-- The backoff index saturates: after `k` failures it is `min k 17`. -/
theorem idxAfterFailures_eq (k : Nat) :
    XmlrpcClient.idxAfterFailures k = min k 17 := by
  induction k with
  | zero => rfl
  | succ n ih =>
    unfold XmlrpcClient.idxAfterFailures XmlrpcClient.scheduleTryAgain
    rw [ih]
    have hlen : TRY_AGAIN_LIST.length = 18 := rfl
    rw [hlen]
    split <;> omega

/-! ## Claim theorems -/

/-- C2: after `k ≥ 1` consecutive connection-refused failures the delay
scheduled for the next retry is entry `min (k-1, len-1)` of the schedule
`1, 2, 2, 4, 4, 4, 4, 8, 8, 8, 8, 16, 32, 64, 128, 256, 512, 1000` ms,
saturating at the last entry, and any successful call resets the
backoff index to the first entry. -/
theorem C2_backoff_schedule (k : Nat) (_hk : 1 ≤ k) (st : XmlrpcClient.State) :
    XmlrpcClient.delayOfFailure k
      = TRY_AGAIN_LIST.getD (min (k - 1) (TRY_AGAIN_LIST.length - 1)) 0
    ∧ (XmlrpcClient.step st .success).1.timeoutIdx = 0 := by
  constructor
  · unfold XmlrpcClient.delayOfFailure
    rw [idxAfterFailures_eq]
    rfl
  · rfl

/-- C2 witness: the 8th consecutive failure is delayed by schedule entry
7, and a success resets the index. -/
theorem C2_backoff_schedule_witness :
    XmlrpcClient.delayOfFailure 8
      = TRY_AGAIN_LIST.getD (min (8 - 1) (TRY_AGAIN_LIST.length - 1)) 0
    ∧ (XmlrpcClient.step ⟨[3], 5⟩ .success).1.timeoutIdx = 0 :=
  C2_backoff_schedule 8 (by decide) ⟨[3], 5⟩

/-- C3 counterexample: a DNS failure (`ENOTFOUND`) is a
transport-unavailable error, yet the head call is shifted off the queue
and rejected instead of being retried. -/
theorem C3_counterexample :
    (XmlrpcClient.step ⟨[7, 8], 0⟩ (.failure (some "ENOTFOUND"))).1.callQueue = [8]
    ∧ (XmlrpcClient.step ⟨[7, 8], 0⟩ (.failure (some "ENOTFOUND"))).2
        = .rejected := by
  constructor <;> rfl

/-- C3 (amended): only a failure whose error code is `ECONNREFUSED`
leaves the head call queued and schedules a backoff retry; every other
failure (including DNS failures and timeouts) removes the head from the
queue and rejects its future, letting the next queued call proceed. -/
theorem C3_failure_classification (st : XmlrpcClient.State) (code : Option String) :
    (code = some "ECONNREFUSED" →
      (XmlrpcClient.step st (.failure code)).1.callQueue = st.callQueue
      ∧ (XmlrpcClient.step st (.failure code)).2
          = .retryScheduled (TRY_AGAIN_LIST.getD st.timeoutIdx 0))
    ∧ (code ≠ some "ECONNREFUSED" →
      (XmlrpcClient.step st (.failure code)).1.callQueue = st.callQueue.tail
      ∧ (XmlrpcClient.step st (.failure code)).2 = .rejected) := by
  constructor
  · intro h
    simp [XmlrpcClient.step, XmlrpcClient.scheduleTryAgain, h]
  · intro h
    simp [XmlrpcClient.step, h]

/-- C3 witness: a connection-refused failure keeps both queued calls and
schedules the first backoff delay of 1 ms. -/
theorem C3_failure_classification_witness :
    (XmlrpcClient.step ⟨[1, 2], 0⟩ (.failure (some "ECONNREFUSED"))).1.callQueue
        = [1, 2]
    ∧ (XmlrpcClient.step ⟨[1, 2], 0⟩ (.failure (some "ECONNREFUSED"))).2
        = .retryScheduled (TRY_AGAIN_LIST.getD 0 0) :=
  (C3_failure_classification ⟨[1, 2], 0⟩ (some "ECONNREFUSED")).1 rfl

/-- C7: with a positive `queueLength` bound, appending a call that makes
the queue exceed the bound drops and rejects the oldest queued call;
the dropped call is never one that is absent from the queue (in
particular never the executing call, which `_executeCall` already
shifted off); with a negative bound nothing is ever dropped. -/
theorem C7_service_queue_overflow (st : ServiceClientState) (c : Nat) :
    (st.maxQueueLength < 0 →
      ServiceClient.call st c
        = ({ st with callQueue := st.callQueue ++ [c] }, none))
    ∧ (0 < st.maxQueueLength →
        st.maxQueueLength < (st.callQueue.length + 1 : Int) →
      ServiceClient.call st c
        = ({ st with callQueue := (st.callQueue ++ [c]).tail },
           st.callQueue.head?))
    ∧ (∀ x, x ∉ st.callQueue → x ≠ c → (ServiceClient.call st c).2 ≠ some x)
    ∧ (∀ h t, st.callQueue = h :: t →
      ServiceClient.executeCall st
        = ({ st with callQueue := t, calling := true }, some h)) := by
  refine ⟨?_, ?_, ?_, ?_⟩
  · intro hneg
    unfold ServiceClient.call
    rw [if_neg]
    rintro ⟨h1, -⟩
    omega
  · intro hpos hover
    unfold ServiceClient.call
    rw [if_pos ⟨hpos, by simpa using hover⟩]
    cases hq : st.callQueue with
    | nil =>
      exfalso
      rw [hq] at hover
      simp at hover
      omega
    | cons a t =>
      simp [hq, List.cons_append]
  · intro x hx hxc
    unfold ServiceClient.call
    dsimp only
    split
    · cases hq : st.callQueue with
      | nil =>
        simp [hq]
        exact fun hcx => hxc hcx.symm
      | cons a t =>
        simp [hq, List.cons_append]
        intro hax
        exact hx (by rw [hq, ← hax]; exact List.mem_cons_self a t)
    · simp
  · intro h t hq
    unfold ServiceClient.executeCall
    rw [hq]

/-- C7 witness: with bound 2 and queue `[10, 11]`, a third call drops
the oldest queued call `10`, and executing from `[10, 11]` removes `10`
from the queue. -/
theorem C7_service_queue_overflow_witness :
    ServiceClient.call ⟨[10, 11], false, 2⟩ 12
      = (⟨[11, 12], false, 2⟩, some 10)
    ∧ ServiceClient.executeCall ⟨[10, 11], false, 2⟩
      = (⟨[11], true, 2⟩, some 10) :=
  ⟨(C7_service_queue_overflow ⟨[10, 11], false, 2⟩ 12).2.1 (by decide) (by decide),
   (C7_service_queue_overflow ⟨[10, 11], false, 2⟩ 12).2.2.2 10 [11] rfl⟩

/-- C8: `serializeServiceResponse` produces, for a success, the byte `1`
then the `u32` little-endian byte length of the serialized response then
the response bytes; for a failure, the byte `0` then the `u32`
little-endian length of the human-readable error string then its
bytes. -/
theorem C8_service_response_framing {α : Type} (spec : MsgSpec α) (r : α) :
    TcprosUtils.serializeServiceResponse spec r true
      = 1 :: (uint32LE (spec.serialize r).length ++ spec.serialize r)
    ∧ TcprosUtils.serializeServiceResponse spec r false
      = 0 :: (uint32LE (strBytes "Unable to handle service call").length
          ++ strBytes "Unable to handle service call") :=
  ⟨serializeServiceResponse_true spec r, serializeServiceResponse_false spec r⟩

/-- C10: `addClient` registers a queue only for `queueSize > 0` (and the
`ClientQueue` constructor throws for `queueSize < 1`); pinging an id
with no registered queue — including one passed to `addClient` with
`queueSize ≤ 0` — throws `Unable to queue message for unknown client`. -/
theorem C10_unknown_client {α : Type} (sp : GlobalSpinner α) (id : String)
    (qs tm : Int) (m : α) :
    (qs ≤ 0 → GlobalSpinner.addClient sp id qs tm = .ok sp)
    ∧ (qs < 1 → ClientQueue.mk' α qs tm
        = .error ("Unable to create client message queue with size "
            ++ toString qs ++ " - minimum is 1"))
    ∧ (sp.lookup id = none →
        GlobalSpinner.ping sp id m
          = .error "Unable to queue message for unknown client")
    ∧ (0 < qs → ∃ sp', GlobalSpinner.addClient sp id qs tm = .ok sp'
        ∧ sp'.lookup id = some ⟨[], qs.toNat, tm, none⟩) := by
  refine ⟨?_, ?_, ?_, ?_⟩
  · intro h
    unfold GlobalSpinner.addClient
    rw [if_neg (by omega)]
  · intro h
    unfold ClientQueue.mk'
    rw [if_pos h]
  · intro h
    simp [GlobalSpinner.ping, GlobalSpinner.queueMessage, h]
  · intro h
    unfold GlobalSpinner.addClient
    rw [if_pos h]
    unfold ClientQueue.mk'
    rw [if_neg (by omega)]
    exact ⟨_, rfl, by simp [GlobalSpinner.lookup, List.find?]⟩

/-- C10 witness: on an empty spinner, `addClient` with `queueSize = -1`
registers nothing and a ping for that id throws; the constructor throws
for `-1`; `queueSize = 2` does register a queue. -/
theorem C10_unknown_client_witness :
    GlobalSpinner.addClient (⟨[], []⟩ : GlobalSpinner Nat) "s" (-1) 0 = .ok ⟨[], []⟩
    ∧ ClientQueue.mk' Nat (-1) 0
        = .error ("Unable to create client message queue with size "
            ++ toString (-1 : Int) ++ " - minimum is 1")
    ∧ GlobalSpinner.ping (⟨[], []⟩ : GlobalSpinner Nat) "s" 3
        = .error "Unable to queue message for unknown client"
    ∧ (∃ sp', GlobalSpinner.addClient (⟨[], []⟩ : GlobalSpinner Nat) "s" 2 0 = .ok sp'
        ∧ sp'.lookup "s" = some ⟨[], (2 : Int).toNat, 0, none⟩) :=
  ⟨(C10_unknown_client ⟨[], []⟩ "s" (-1) 0 3).1 (by decide),
   (C10_unknown_client (⟨[], []⟩ : GlobalSpinner Nat) "s" (-1) 0 3).2.1 (by decide),
   (C10_unknown_client ⟨[], []⟩ "s" (-1) 0 3).2.2.1 rfl,
   (C10_unknown_client ⟨[], []⟩ "s" 2 0 3).2.2.2 (by decide)⟩

/-- C1: pushing `M` messages into a fresh client queue of capacity
`N ≥ 1` retains exactly the last `min(M,N)` of them in push order
(overflow discards the oldest, never the newest), and a dispatch hands
exactly that retained batch over in one call and leaves the queue
empty. -/
theorem C1_queue_retention {α : Type} (N : Nat) (hN : 1 ≤ N) (tm : Int)
    (msgs : List α) (now : Int) :
    (ClientQueue.pushAll ⟨[], N, tm, none⟩ msgs).queue
        = msgs.drop (msgs.length - N)
    ∧ ((ClientQueue.pushAll ⟨[], N, tm, none⟩ msgs).queue).length
        = min msgs.length N
    ∧ ClientQueue.handleClientMessages (ClientQueue.pushAll ⟨[], N, tm, none⟩ msgs) now
        = (true, msgs.drop (msgs.length - N), ⟨[], N, tm, some now⟩) := by
  obtain ⟨hq, hs, ht, hh⟩ :=
    pushAll_queue msgs (⟨[], N, tm, none⟩ : ClientQueue α) (by simp)
  have hq' : (ClientQueue.pushAll (⟨[], N, tm, none⟩ : ClientQueue α) msgs).queue
      = msgs.drop (msgs.length - N) := by
    simpa using hq
  have hs' : (ClientQueue.pushAll (⟨[], N, tm, none⟩ : ClientQueue α) msgs).queueSize
      = N := hs
  have ht' : (ClientQueue.pushAll (⟨[], N, tm, none⟩ : ClientQueue α) msgs).throttleMs
      = tm := ht
  have hh' : (ClientQueue.pushAll (⟨[], N, tm, none⟩ : ClientQueue α) msgs).handleTime
      = none := hh
  refine ⟨hq', ?_, ?_⟩
  · rw [hq', List.length_drop]
    omega
  · unfold ClientQueue.handleClientMessages ClientQueue.eligible
    rw [hq', hs', ht', hh']
    simp

/-- C1 witness: capacity 2, four pushes keep `[3, 4]`, and the dispatch
hands `[3, 4]` over and empties the queue. -/
theorem C1_queue_retention_witness :
    (ClientQueue.pushAll (⟨[], 2, 1000, none⟩ : ClientQueue Nat) [1, 2, 3, 4]).queue
        = [1, 2, 3, 4].drop ([1, 2, 3, 4].length - 2)
    ∧ ((ClientQueue.pushAll (⟨[], 2, 1000, none⟩ : ClientQueue Nat) [1, 2, 3, 4]).queue).length
        = min [1, 2, 3, 4].length 2
    ∧ ClientQueue.handleClientMessages
          (ClientQueue.pushAll (⟨[], 2, 1000, none⟩ : ClientQueue Nat) [1, 2, 3, 4]) 7
        = (true, [1, 2, 3, 4].drop ([1, 2, 3, 4].length - 2), ⟨[], 2, 1000, some 7⟩) :=
  C1_queue_retention 2 (by decide) 1000 [1, 2, 3, 4] 7

/-- C9 counterexample: a client whose last dispatch was at time 0 with
`throttleMs = 5` satisfies `now − lastDispatchTime ≥ throttleMs` at
`now = 5`, yet the code (strict `>`) does not dispatch it. -/
theorem C9_counterexample :
    ((5 : Int) - 0 ≥ (⟨[1], 1, 5, some 0⟩ : ClientQueue Nat).throttleMs)
    ∧ (ClientQueue.handleClientMessages (⟨[1], 1, 5, some 0⟩ : ClientQueue Nat) 5).1
        = false := by
  constructor
  · decide
  · rfl

/-- C9 (amended): a client is dispatched on a tick iff its last dispatch
time is unset or `now − lastDispatchTime > throttleMs` (strictly); a
dispatch hands the queue over and empties it; an ineligible client is
left fully intact and stays on the call queue for the next tick. -/
theorem C9_throttle_strict {α : Type} (st : ClientQueue α) (now : Int)
    (clients : List (String × ClientQueue α)) (id : String) :
    ((st.handleClientMessages now).1 = true ↔
      (st.handleTime = none ∨ ∃ h, st.handleTime = some h ∧ now - h > st.throttleMs))
    ∧ ((st.handleClientMessages now).1 = true →
        st.handleClientMessages now
          = (true, st.queue, { st with queue := [], handleTime := some now }))
    ∧ ((st.handleClientMessages now).1 = false →
        st.handleClientMessages now = (false, [], st))
    ∧ ((id, st) ∈ clients → (st.handleClientMessages now).1 = false →
        (id, st) ∈ (GlobalSpinner.tick clients now).1
        ∧ id ∈ (GlobalSpinner.tick clients now).2) := by
  have hdisp : ∀ b, (st.handleClientMessages now).1 = b →
      st.handleClientMessages now
        = if b then (true, st.queue, { st with queue := [], handleTime := some now })
          else (false, [], st) := by
    intro b hb
    unfold ClientQueue.handleClientMessages at hb ⊢
    by_cases he : st.eligible now = true
    · rw [if_pos he] at hb ⊢
      rw [← hb]
      rfl
    · rw [if_neg he] at hb ⊢
      rw [← hb]
      rfl
  refine ⟨?_, fun h => by simpa using hdisp true h, fun h => by simpa using hdisp false h, ?_⟩
  · unfold ClientQueue.handleClientMessages ClientQueue.eligible
    cases hh : st.handleTime with
    | none => simp
    | some h =>
      by_cases hc : now - h > st.throttleMs
      · simp [hc]
      · simp [hc]
  · intro hmem hfalse
    have hkeep : (st.handleClientMessages now).2.2 = st := by
      rw [hdisp false hfalse]
      rfl
    constructor
    · exact List.mem_map.2 ⟨(id, st), hmem, by simp [hkeep]⟩
    · exact List.mem_map.2 ⟨(id, st), List.mem_filter.2 ⟨hmem, by simp [hfalse]⟩, rfl⟩

/-- C9 witness: at `now = 3`, a client last dispatched at 0 with
`throttleMs = 5` keeps its queue and stays on the call queue. -/
theorem C9_throttle_strict_witness :
    ("a", (⟨[2], 1, 5, some 0⟩ : ClientQueue Nat))
        ∈ (GlobalSpinner.tick [("a", (⟨[2], 1, 5, some 0⟩ : ClientQueue Nat))] 3).1
    ∧ "a" ∈ (GlobalSpinner.tick [("a", (⟨[2], 1, 5, some 0⟩ : ClientQueue Nat))] 3).2 :=
  (C9_throttle_strict (⟨[2], 1, 5, some 0⟩ : ClientQueue Nat) 3
      [("a", ⟨[2], 1, 5, some 0⟩)] "a").2.2.2 (by simp) rfl

/-- C4 counterexample: when the publisher's own md5sum is `'*'` and the
subscriber sends a different concrete md5sum, the claim's condition
("neither side sent `'*'`") says the header is accepted, but
`validateSubHeader` rejects it: only the peer's `'*'` is honored. -/
theorem C4_counterexample :
    (TcprosUtils.validateSubHeader ⟨some "t", some "ty", some "a"⟩ "t" "ty" "*").isSome
        = true
    ∧ TcprosUtils.specSubHeaderRejects ⟨some "t", some "ty", some "a"⟩ "t" "ty" "*"
        = false := by
  constructor <;> rfl

/-- C4 (amended): the publisher answers a subscriber header with an
error and no registration exactly when a required field is missing, the
topic mismatches, the type mismatches and is not `'*'`, or the md5sum
mismatches and the subscriber's md5sum is not `'*'` (the publisher's own
md5sum being `'*'` does not suppress the check); otherwise there is no
error, the response header is the first write, and the subscriber is
added. -/
theorem C4_sub_header_validation {α : Type} (p : Publisher α)
    (nodeName subName : String) (header : ConnHeader) :
    ((Publisher.handleSubscriberConnection p nodeName subName header).2.errorSent.isSome
        = TcprosUtils.subHeaderRejects header p.topic p.type p.messageHandler.md5sum)
    ∧ ((Publisher.handleSubscriberConnection p nodeName subName header).2.added
        = !TcprosUtils.subHeaderRejects header p.topic p.type p.messageHandler.md5sum)
    ∧ (TcprosUtils.subHeaderRejects header p.topic p.type p.messageHandler.md5sum = false →
        (Publisher.handleSubscriberConnection p nodeName subName header).2.wrote.head?
          = some (TcprosUtils.createPubHeader nodeName p.messageHandler.md5sum
              p.type p.latching)) := by
  have hiff := validateSubHeader_isSome header p.topic p.type p.messageHandler.md5sum
  cases hv : TcprosUtils.validateSubHeader header p.topic p.type p.messageHandler.md5sum with
  | some e =>
    rw [hv] at hiff
    simp only [Option.isSome_some] at hiff
    refine ⟨?_, ?_, ?_⟩
    · simp [Publisher.handleSubscriberConnection, hv, ← hiff]
    · simp [Publisher.handleSubscriberConnection, hv, ← hiff]
    · intro hfalse
      rw [← hiff] at hfalse
      cases hfalse
  | none =>
    rw [hv] at hiff
    simp only [Option.isSome_none] at hiff
    refine ⟨?_, ?_, ?_⟩
    · simp [Publisher.handleSubscriberConnection, hv, ← hiff]
    · simp [Publisher.handleSubscriberConnection, hv, ← hiff]
    · intro _
      simp [Publisher.handleSubscriberConnection, hv]

/-- C4 witness: the matching example header is accepted, the subscriber
added, and the response header written first. -/
theorem C4_sub_header_validation_witness :
    ((Publisher.handleSubscriberConnection examplePub "n" "s" exampleHeader).2.errorSent.isSome
        = TcprosUtils.subHeaderRejects exampleHeader examplePub.topic examplePub.type
            examplePub.messageHandler.md5sum)
    ∧ ((Publisher.handleSubscriberConnection examplePub "n" "s" exampleHeader).2.added
        = !TcprosUtils.subHeaderRejects exampleHeader examplePub.topic examplePub.type
            examplePub.messageHandler.md5sum)
    ∧ (Publisher.handleSubscriberConnection examplePub "n" "s" exampleHeader).2.wrote.head?
        = some (TcprosUtils.createPubHeader "n" examplePub.messageHandler.md5sum
            examplePub.type examplePub.latching) :=
  ⟨(C4_sub_header_validation examplePub "n" "s" exampleHeader).1,
   (C4_sub_header_validation examplePub "n" "s" exampleHeader).2.1,
   (C4_sub_header_validation examplePub "n" "s" exampleHeader).2.2 (by rfl)⟩

/-- C5: the subscriber validates the publisher's response header with
the symmetric rule; when that validation fails (for instance on an
md5sum mismatch without `'*'`), the connection is closed and no frame of
the connection is ever handed toward the user callback. -/
theorem C5_md5_validation_blocks (type md5sum : String)
    (parse : List Nat → PubHeaderMsg) (f : List Nat) (frames : List (List Nat))
    (herr : (parse f).error = none)
    (hval : TcprosUtils.validatePubHeader (parse f).fields type md5sum ≠ none) :
    (Subscriber.runConn type md5sum parse Subscriber.initialConn (f :: frames)).closed
        = true
    ∧ (Subscriber.runConn type md5sum parse Subscriber.initialConn (f :: frames)).delivered
        = [] := by
  obtain ⟨e, he⟩ := Option.ne_none_iff_exists'.mp hval
  have hstep : Subscriber.handleMessage type md5sum parse Subscriber.initialConn f
      = ⟨false, true, []⟩ := by
    unfold Subscriber.handleMessage Subscriber.initialConn
    simp [herr, he]
  have hrun : Subscriber.runConn type md5sum parse Subscriber.initialConn (f :: frames)
      = Subscriber.runConn type md5sum parse ⟨false, true, []⟩ frames := by
    show Subscriber.runConn type md5sum parse
        (Subscriber.handleMessage type md5sum parse Subscriber.initialConn f) frames
      = _
    rw [hstep]
  rw [hrun, runConn_closed type md5sum parse frames ⟨false, true, []⟩ rfl]
  exact ⟨rfl, rfl⟩

/-- C5 witness: a publisher response header with md5sum `"x"` against an
expected `"y"` closes the connection and the two following data frames
are never delivered. -/
theorem C5_md5_validation_blocks_witness :
    (Subscriber.runConn "T" "y" (fun _ => ⟨none, ⟨none, some "T", some "x"⟩⟩)
        Subscriber.initialConn ([0] :: [[1], [2]])).closed = true
    ∧ (Subscriber.runConn "T" "y" (fun _ => ⟨none, ⟨none, some "T", some "x"⟩⟩)
        Subscriber.initialConn ([0] :: [[1], [2]])).delivered = [] :=
  C5_md5_validation_blocks "T" "y" (fun _ => ⟨none, ⟨none, some "T", some "x"⟩⟩)
    [0] [[1], [2]] rfl (by decide)

/-- C6: a latching publisher that has published at least one message
writes, to every newly validated subscriber, the serialization of the
most recently published message as the first data frame right after the
response header, and adds the subscriber. -/
theorem C6_latched_delivery {α : Type} (p : Publisher α)
    (nodeName subName : String) (msgs : List α) (m : α) (header : ConnHeader)
    (hl : p.latching = true) (hm : msgs.getLast? = some m)
    (hv : TcprosUtils.validateSubHeader header p.topic p.type
        p.messageHandler.md5sum = none) :
    (Publisher.handleSubscriberConnection (Publisher.handleMsgQueue p msgs).1
        nodeName subName header).2.wrote
      = [TcprosUtils.createPubHeader nodeName p.messageHandler.md5sum
           p.type p.latching,
         TcprosUtils.serializeMessage p.messageHandler m]
    ∧ (Publisher.handleSubscriberConnection (Publisher.handleMsgQueue p msgs).1
        nodeName subName header).2.added = true := by
  obtain ⟨htop, htyp, hlat, hsub, hmh⟩ := handleMsgFold_fields msgs (p, [])
  have hlast : (Publisher.handleMsgQueue p msgs).1.lastSentMsg
      = some (TcprosUtils.serializeMessage p.messageHandler m) :=
    handleMsgFold_lastSent msgs (p, []) m hl hm
  have htop' : (Publisher.handleMsgQueue p msgs).1.topic = p.topic := htop
  have htyp' : (Publisher.handleMsgQueue p msgs).1.type = p.type := htyp
  have hlat' : (Publisher.handleMsgQueue p msgs).1.latching = p.latching := hlat
  have hmh' : (Publisher.handleMsgQueue p msgs).1.messageHandler
      = p.messageHandler := hmh
  have hv' : TcprosUtils.validateSubHeader header
      (Publisher.handleMsgQueue p msgs).1.topic
      (Publisher.handleMsgQueue p msgs).1.type
      (Publisher.handleMsgQueue p msgs).1.messageHandler.md5sum = none := by
    rw [htop', htyp', hmh']
    exact hv
  constructor
  · simp [Publisher.handleSubscriberConnection, htop', htyp', hmh', hlat', hlast, hv]
  · simp [Publisher.handleSubscriberConnection, htop', htyp', hmh', hv]

/-- C6 witness: the example latching publisher publishes `5`; a matching
subscriber connecting afterwards is written the response header then the
serialization of `5`. -/
theorem C6_latched_delivery_witness :
    (Publisher.handleSubscriberConnection (Publisher.handleMsgQueue examplePub [5]).1
        "n" "s" exampleHeader).2.wrote
      = [TcprosUtils.createPubHeader "n" examplePub.messageHandler.md5sum
           examplePub.type examplePub.latching,
         TcprosUtils.serializeMessage examplePub.messageHandler 5]
    ∧ (Publisher.handleSubscriberConnection (Publisher.handleMsgQueue examplePub [5]).1
        "n" "s" exampleHeader).2.added = true :=
  C6_latched_delivery examplePub "n" "s" [5] 5 exampleHeader rfl rfl (by rfl)

end Rosjs
